import Mathlib

/-
Shallow embedding of the `rlog` rotating buffered log writer
(package rlog: `NewWriter`, `Write`, `Flush`, `Close`, and the internal
`flush`, `rotate`, `ensureCurrentFile`, plus `acquireRotationLock`).

The filesystem is modelled explicitly as an `FS` record holding the bytes
of `latest.log`, the set of rotated files (name and content), the
cross-process rotation lock, and a fault-injection script (`faults`): each
primitive filesystem operation consumes one entry of the script and fails
when that entry is `true`.  The model is single-process: the drift check in
`ensureCurrentFile` (`os.SameFile`) always finds the open handle and
`latest.log` identical, so the reopen branch never fires.

Machine integers: Go `int64`/`int` sizes are modelled as `Int`; byte-slice
lengths are `Nat` coerced to `Int` where the Go code compares them against
configured thresholds.  Byte values are modelled as `Nat`.
-/

namespace Rlog

/-- Primitive (unwrapped) errors returned by the modelled OS layer:
an injected I/O fault, the `os.ErrClosed` error from using a closed
`os.File`, and `os.IsNotExist` from statting or renaming a missing path. -/
inductive PErr where
  | injected
  | closedFile
  | notExist
  deriving DecidableEq, Repr

/-- Errors produced by the writer.  Each constructor corresponds to one
`fmt.Errorf` wrap site in the Go code (`stat log file`, `write log file`,
`sync log file`, `failed to acquire rotation lock`, `failed to close log
file`, `failed to rename log file`, `failed to create new log file`,
`log file is closed`, `directory path must be provided`); `raw e` stands
for an unwrapped error passed through as-is (from `ensureCurrentFile`,
or from `w.file.Close()` in `Close`). -/
inductive WErr where
  | raw (e : PErr)
  | statErr (e : PErr)
  | writeErr (e : PErr)
  | syncErr (e : PErr)
  | lockErr (e : PErr)
  | closeFileErr (e : PErr)
  | renameErr (e : PErr)
  | createErr (e : PErr)
  | fileClosed
  | dirPathMissing
  deriving DecidableEq, Repr

/-- Wall-clock instant used by `rotate` to name the rotated file,
with microsecond resolution as in Go's layout `20060102-150405.000000`. -/
structure Timestamp where
  year : Nat
  month : Nat
  day : Nat
  hour : Nat
  minute : Nat
  second : Nat
  micro : Nat
  deriving DecidableEq, Repr

/-- Left-pads the decimal rendering of `n` with zeros to `width` digits,
as Go's reference-time layout does for each timestamp component. -/
def pad (width : Nat) (n : Nat) : String :=
  let s := toString n
  String.mk (List.replicate (width - s.length) '0') ++ s

/-- Go `time.Format("20060102-150405.000000")`: date, dash, time, dot,
six fractional-second digits. -/
def tsFormat (t : Timestamp) : String :=
  pad 4 t.year ++ pad 2 t.month ++ pad 2 t.day ++ "-" ++
  pad 2 t.hour ++ pad 2 t.minute ++ pad 2 t.second ++ "." ++ pad 6 t.micro

/-- Name given to a rotated file: the formatted timestamp plus `.log`
(Go: `fmt.Sprintf("%s.log", ts)`). -/
def rotatedName (t : Timestamp) : String :=
  tsFormat t ++ ".log"

/-- The modelled directory state plus observation counters.
`latest`/`durable` are the bytes of `latest.log` and the prefix of them
known to be on stable storage (updated by `Sync`); `rotated` lists the
rotated files, newest first; `locked` is the cross-process rotation lock;
`faults` is the fault-injection script consumed one entry per primitive
operation; `ioOps` counts primitive filesystem operations attempted;
`closeCalls` counts invocations of `file.Close()` on the active handle. -/
structure FS where
  latest : List Nat
  durable : List Nat
  latestExists : Bool
  rotated : List (String × List Nat)
  locked : Bool
  faults : List Bool
  ioOps : Nat
  closeCalls : Nat
  now : Timestamp
  deriving DecidableEq, Repr

/-- Configuration for `NewWriter` (Go `rlog.Config`).  `dirPathSet`
models `DirPath != ""`; `maxBufAge` is a duration in nanoseconds
(zero means unset, negative disables age-based flushing). -/
structure Config where
  dirPathSet : Bool
  maxFileSize : Int
  maxBufSize : Int
  maxBufAge : Int
  deriving DecidableEq, Repr

def DefaultMaxFileSize : Int := 256 * 1024 * 1024

def DefaultMaxBufSize : Int := 4096

def DefaultMaxBufAge : Int := 15 * 1000000000

/-- The writer state (Go `rlog.Writer`).  `fileOpen` models
`w.file != nil`; `osOpen` models whether the underlying descriptor of
that handle is still open (an `os.File` value survives its own `Close`
and then fails every operation with `os.ErrClosed`); `ageTrigger`
models `closeAgeTrigger != nil`, i.e. the background age-flush
goroutine running. -/
structure Writer where
  err : Option WErr
  cfg : Config
  buf : List Nat
  fileOpen : Bool
  osOpen : Bool
  ageTrigger : Bool
  deriving DecidableEq, Repr

/-- Consumes one entry of the fault script and counts the primitive
operation; an empty script means no fault. -/
def takeFault (fs : FS) : Bool × FS :=
  match fs.faults with
  | [] => (false, { fs with ioOps := fs.ioOps + 1 })
  | b :: rest => (b, { fs with faults := rest, ioOps := fs.ioOps + 1 })

/-- Models `os.Stat(latestPath)`: fails on an injected fault or when
`latest.log` does not exist, otherwise returns its size. -/
def pathStatLatest (fs : FS) : Except PErr Nat × FS :=
  let (f, fs) := takeFault fs
  if f then (.error .injected, fs)
  else if !fs.latestExists then (.error .notExist, fs)
  else (.ok fs.latest.length, fs)

/-- Models `w.file.Stat()`: `os.ErrClosed` on a closed handle, otherwise
the size of the file the handle refers to (in the single-process model
the open handle always refers to `latest.log`). -/
def handleStat (w : Writer) (fs : FS) : Except PErr Nat × FS :=
  if !w.osOpen then (.error .closedFile, fs)
  else
    let (f, fs) := takeFault fs
    if f then (.error .injected, fs)
    else (.ok fs.latest.length, fs)

/-- Models `w.file.Write(p)`: appends to `latest.log` through the
append-mode handle. -/
def handleWrite (w : Writer) (p : List Nat) (fs : FS) : Except PErr Unit × FS :=
  if !w.osOpen then (.error .closedFile, fs)
  else
    let (f, fs) := takeFault fs
    if f then (.error .injected, fs)
    else (.ok (), { fs with latest := fs.latest ++ p })

/-- Models `w.file.Sync()`: on success all bytes of `latest.log` become
durable. -/
def handleSync (w : Writer) (fs : FS) : Except PErr Unit × FS :=
  if !w.osOpen then (.error .closedFile, fs)
  else
    let (f, fs) := takeFault fs
    if f then (.error .injected, fs)
    else (.ok (), { fs with durable := fs.latest })

/-- Models `w.file.Close()`: counted in `closeCalls`; `os.ErrClosed` when
the descriptor is already closed, otherwise closes it. -/
def handleClose (w : Writer) (fs : FS) : Except PErr Unit × Writer × FS :=
  let fs := { fs with closeCalls := fs.closeCalls + 1 }
  if !w.osOpen then (.error .closedFile, w, fs)
  else
    let (f, fs) := takeFault fs
    if f then (.error .injected, w, fs)
    else (.ok (), { w with osOpen := false }, fs)

/-- Models `os.OpenFile(latestPath, O_CREATE|O_WRONLY|O_APPEND, 0644)`:
keeps existing content, creates an empty file when missing, and leaves
the writer holding a fresh open handle. -/
def openLatest (w : Writer) (fs : FS) : Except PErr Unit × Writer × FS :=
  let (f, fs) := takeFault fs
  if f then (.error .injected, w, fs)
  else
    let fs :=
      if fs.latestExists then fs
      else { fs with latest := [], durable := [], latestExists := true }
    (.ok (), { w with fileOpen := true, osOpen := true }, fs)

/-- Models `os.Rename(latestPath, newPath)` inside `rotate`: moves the
content of `latest.log` to a new rotated file named by the current
timestamp. -/
def renameLatest (fs : FS) : Except PErr Unit × FS :=
  let (f, fs) := takeFault fs
  if f then (.error .injected, fs)
  else if !fs.latestExists then (.error .notExist, fs)
  else
    (.ok (), { fs with
      rotated := (rotatedName fs.now, fs.latest) :: fs.rotated,
      latest := [], durable := [], latestExists := false })

/-- Models `acquireRotationLock`: opens `.rotate.lock` and takes the
exclusive flock. -/
def lockAcquire (fs : FS) : Except PErr Unit × FS :=
  let (f, fs) := takeFault fs
  if f then (.error .injected, fs)
  else (.ok (), { fs with locked := true })

/-- Models the `unlock` closure returned by `acquireRotationLock`. -/
def lockRelease (fs : FS) : FS :=
  { fs with locked := false }

/-- Models `ensureCurrentFile`: stats `latest.log` by path, stats the open
handle, and compares identity.  In the single-process model the two always
denote the same file, so the reopen branch never fires; errors from either
stat are propagated unwrapped. -/
def ensureCurrentFile (w : Writer) (fs : FS) : Except PErr Unit × Writer × FS :=
  match pathStatLatest fs with
  | (.error e, fs) => (.error e, w, fs)
  | (.ok _, fs) =>
    match handleStat w fs with
    | (.error e, fs) => (.error e, w, fs)
    | (.ok _, fs) => (.ok (), w, fs)

/-- Body of `rotate` after the rotation lock is held: close the active
handle if open (latching a wrapped error on failure), rename `latest.log`
to the timestamped name, and create a fresh `latest.log` (for rename and
create failures the Go code latches the wrapped error but returns the
raw one). -/
def rotateLocked (w : Writer) (fs : FS) : Except WErr Unit × Writer × FS :=
  let closed : Option WErr × Writer × FS :=
    if w.fileOpen then
      match handleClose w fs with
      | (.error e, w, fs) => (some (WErr.closeFileErr e), w, fs)
      | (.ok (), w, fs) => (none, { w with fileOpen := false }, fs)
    else (none, w, fs)
  match closed with
  | (some we, w, fs) => (.error we, { w with err := some we }, fs)
  | (none, w, fs) =>
    match renameLatest fs with
    | (.error e, fs) =>
      (.error (WErr.raw e), { w with err := some (WErr.renameErr e) }, fs)
    | (.ok (), fs) =>
      match openLatest w fs with
      | (.error e, w, fs) =>
        (.error (WErr.raw e), { w with err := some (WErr.createErr e) }, fs)
      | (.ok (), w, fs) => (.ok (), w, fs)

/-- Models `rotate`: short-circuits on a latched error, acquires the
rotation lock (latching a wrapped error on failure), runs the locked body,
and releases the lock on every exit path past acquisition (the Go
`defer unlock()`). -/
def rotate (w : Writer) (fs : FS) : Except WErr Unit × Writer × FS :=
  match w.err with
  | some e => (.error e, w, fs)
  | none =>
    match lockAcquire fs with
    | (.error e, fs) =>
      let we := WErr.lockErr e
      (.error we, { w with err := some we }, fs)
    | (.ok (), fs) =>
      let (res, w, fs) := rotateLocked w fs
      (res, w, lockRelease fs)

/-- Models the internal `flush`: short-circuits on a latched error,
latches `fileClosed` when `w.file == nil`, is a no-op on an empty buffer,
otherwise runs drift check, stat, pre-emptive rotation when the buffered
bytes would make `latest.log` reach `MaxFileSize`, then writes the buffer,
syncs, and clears the buffer. -/
def flush (w : Writer) (fs : FS) : Except WErr Unit × Writer × FS :=
  match w.err with
  | some e => (.error e, w, fs)
  | none =>
    if !w.fileOpen then
      (.error WErr.fileClosed, { w with err := some WErr.fileClosed }, fs)
    else if w.buf.isEmpty then (.ok (), w, fs)
    else
      match ensureCurrentFile w fs with
      | (.error e, w, fs) =>
        (.error (WErr.raw e), { w with err := some (WErr.raw e) }, fs)
      | (.ok (), w, fs) =>
        match handleStat w fs with
        | (.error e, fs) =>
          let we := WErr.statErr e
          (.error we, { w with err := some we }, fs)
        | (.ok size, fs) =>
          let cont : Writer → FS → Except WErr Unit × Writer × FS :=
            fun w fs =>
              match handleWrite w w.buf fs with
              | (.error e, fs) =>
                let we := WErr.writeErr e
                (.error we, { w with err := some we }, fs)
              | (.ok (), fs) =>
                match handleSync w fs with
                | (.error e, fs) =>
                  let we := WErr.syncErr e
                  (.error we, { w with err := some we }, fs)
                | (.ok (), fs) => (.ok (), { w with buf := [] }, fs)
          if w.cfg.maxFileSize ≤ (size : Int) + (w.buf.length : Int) then
            match rotate w fs with
            | (.error we, w, fs) => (.error we, w, fs)
            | (.ok (), w, fs) => cont w fs
          else cont w fs

/-- Models the exported `Flush` (the instance mutex is the serialization
assumption of the model, not extra state). -/
def Flush (w : Writer) (fs : FS) : Except WErr Unit × Writer × FS :=
  flush w fs

/-- Models `Write`: short-circuits on a latched error; flushes first when
the buffered bytes plus the payload would reach `MaxBufSize`; a payload
at or above `MaxBufSize` is streamed straight to the file (drift check,
stat, pre-emptive rotation, write, sync — the drift-check error here is
returned without latching, exactly as in the Go code); otherwise the
payload is appended to the buffer. -/
def Write (w : Writer) (fs : FS) (p : List Nat) : Except WErr Nat × Writer × FS :=
  match w.err with
  | some e => (.error e, w, fs)
  | none =>
    let afterFlush : Except WErr Unit × Writer × FS :=
      if w.cfg.maxBufSize ≤ (w.buf.length : Int) + (p.length : Int) then
        flush w fs
      else (.ok (), w, fs)
    match afterFlush with
    | (.error we, w, fs) => (.error we, w, fs)
    | (.ok (), w, fs) =>
      if w.cfg.maxBufSize ≤ (p.length : Int) then
        match ensureCurrentFile w fs with
        | (.error e, w, fs) => (.error (WErr.raw e), w, fs)
        | (.ok (), w, fs) =>
          match handleStat w fs with
          | (.error e, fs) =>
            let we := WErr.statErr e
            (.error we, { w with err := some we }, fs)
          | (.ok size, fs) =>
            let cont : Writer → FS → Except WErr Nat × Writer × FS :=
              fun w fs =>
                match handleWrite w p fs with
                | (.error e, fs) =>
                  let we := WErr.writeErr e
                  (.error we, { w with err := some we }, fs)
                | (.ok (), fs) =>
                  match handleSync w fs with
                  | (.error e, fs) =>
                    let we := WErr.syncErr e
                    (.error we, { w with err := some we }, fs)
                  | (.ok (), fs) => (.ok p.length, w, fs)
            if w.cfg.maxFileSize ≤ (size : Int) + (p.length : Int) then
              match rotate w fs with
              | (.error we, w, fs) => (.error we, w, fs)
              | (.ok (), w, fs) => cont w fs
            else cont w fs
      else (.ok p.length, { w with buf := w.buf ++ p }, fs)

/-- Models `Close`: stops the age-trigger goroutine, returns the latched
error (or nil success) when already errored or when `w.file == nil`,
otherwise flushes and closes the handle.  Faithful to the Go code, the
handle pointer is NOT cleared and the close error is returned raw without
being latched. -/
def Close (w : Writer) (fs : FS) : Except WErr Unit × Writer × FS :=
  let w := { w with ageTrigger := false }
  if w.err.isSome || !w.fileOpen then
    (match w.err with
     | some e => .error e
     | none => .ok (), w, fs)
  else
    match flush w fs with
    | (.error we, w, fs) => (.error we, w, fs)
    | (.ok (), w, fs) =>
      match handleClose w fs with
      | (.error e, w, fs) => (.error (WErr.raw e), w, fs)
      | (.ok (), w, fs) => (.ok (), w, fs)

/-- The defaults block of `NewWriter`: non-positive sizes get the package
defaults; `MaxBufAge` is defaulted only when zero, a negative value being
kept to disable age-based flushing. -/
def resolveConfig (cfg : Config) : Config :=
  { cfg with
    maxFileSize := if cfg.maxFileSize ≤ 0 then DefaultMaxFileSize else cfg.maxFileSize,
    maxBufSize := if cfg.maxBufSize ≤ 0 then DefaultMaxBufSize else cfg.maxBufSize,
    maxBufAge := if cfg.maxBufAge = 0 then DefaultMaxBufAge else cfg.maxBufAge }

/-- Models `NewWriter`: rejects an empty directory path, applies the
defaults (`MaxFileSize`/`MaxBufSize` when non-positive, `MaxBufAge` only
when zero — negative is kept to disable age flushing), creates the
directory, opens `latest.log`, and starts the age-trigger goroutine
exactly when the resolved `MaxBufAge` is positive. -/
def NewWriter (cfg : Config) (fs : FS) : Except WErr (Writer × FS) :=
  if !cfg.dirPathSet then .error WErr.dirPathMissing
  else
    let rcfg : Config := resolveConfig cfg
    let w0 : Writer :=
      { err := none, cfg := rcfg, buf := [],
        fileOpen := false, osOpen := false, ageTrigger := false }
    match openLatest w0 fs with
    | (.error e, _, _) => .error (WErr.raw e)
    | (.ok (), w, fs) =>
      .ok ({ w with ageTrigger := decide (0 < rcfg.maxBufAge) }, fs)

/-- The writer a successful `NewWriter` returns for a given `Config`:
resolved configuration, empty buffer, open handle, and the age-trigger
task running exactly when the resolved `MaxBufAge` is positive. -/
def newWriterState (cfg : Config) : Writer :=
  { err := none, cfg := resolveConfig cfg, buf := [], fileOpen := true,
    osOpen := true, ageTrigger := decide (0 < (resolveConfig cfg).maxBufAge) }

/-- Concatenation of a sequence of payloads in call order. -/
def concatAll (ps : List (List Nat)) : List Nat :=
  ps.foldr (· ++ ·) []

/-- Runs a sequence of `Write` calls in order, stopping at the first
failure and reporting whether every call succeeded. -/
def writeListOk (w : Writer) (fs : FS) : List (List Nat) → Bool × Writer × FS
  | [] => (true, w, fs)
  | p :: rest =>
    match Write w fs p with
    | (.ok _, w, fs) => writeListOk w fs rest
    | (.error _, w, fs) => (false, w, fs)

/-- A healthy single-threaded run state: no latched error, open handle,
existing `latest.log`, no injected faults, everything written so far
durable, `data` being the bytes accepted so far (on disk plus buffered),
and the buffer strictly below the flush threshold. -/
abbrev GoodRun (w : Writer) (fs : FS) (data : List Nat) : Prop :=
  w.err = none ∧ w.fileOpen = true ∧ w.osOpen = true ∧
  fs.latestExists = true ∧ fs.faults = [] ∧ fs.durable = fs.latest ∧
  fs.latest ++ w.buf = data ∧ (w.buf.length : Int) < w.cfg.maxBufSize

/-- Sample instant used by concrete witnesses. -/
def ts0 : Timestamp :=
  { year := 2026, month := 10, day := 11, hour := 12,
    minute := 0, second := 0, micro := 123456 }

/-- Fresh directory state used by concrete witnesses. -/
def fs0 : FS :=
  { latest := [], durable := [], latestExists := true, rotated := [],
    locked := false, faults := [], ioOps := 0, closeCalls := 0, now := ts0 }

/-- Small resolved configuration used by concrete witnesses. -/
def cfgSmall : Config :=
  { dirPathSet := true, maxFileSize := 10, maxBufSize := 5, maxBufAge := -1 }

/-- Healthy freshly-constructed writer used by concrete witnesses. -/
def w0 : Writer :=
  { err := none, cfg := cfgSmall, buf := [],
    fileOpen := true, osOpen := true, ageTrigger := false }

/-- Writer with a small file-size threshold, used by the rotation
witness. -/
def wRot : Writer :=
  { err := none,
    cfg := { dirPathSet := true, maxFileSize := 6, maxBufSize := 5, maxBufAge := -1 },
    buf := [], fileOpen := true, osOpen := true, ageTrigger := false }

/-- Writer with a latched error, used by the poison witness. -/
def wP : Writer :=
  { w0 with err := some (WErr.statErr PErr.injected) }

/-- Projection used to observe whether the age-trigger goroutine was
started by a successful `NewWriter` call. -/
def ageTriggerOf (r : Except WErr (Writer × FS)) : Bool :=
  match r with
  | .ok (w, _) => w.ageTrigger
  | .error _ => false

theorem takeFault_nil {fs : FS} (h : fs.faults = []) :
    takeFault fs = (false, { fs with ioOps := fs.ioOps + 1 }) := by
  simp [takeFault, h]

theorem pathStatLatest_ok {fs : FS} (h1 : fs.faults = [])
    (h2 : fs.latestExists = true) :
    pathStatLatest fs = (.ok fs.latest.length, { fs with ioOps := fs.ioOps + 1 }) := by
  simp [pathStatLatest, takeFault_nil, h1, h2]

theorem handleStat_ok {w : Writer} {fs : FS} (ho : w.osOpen = true)
    (h1 : fs.faults = []) :
    handleStat w fs = (.ok fs.latest.length, { fs with ioOps := fs.ioOps + 1 }) := by
  simp [handleStat, ho, takeFault_nil, h1]

theorem handleWrite_ok {w : Writer} {fs : FS} (p : List Nat)
    (ho : w.osOpen = true) (h1 : fs.faults = []) :
    handleWrite w p fs =
      (.ok (), { fs with latest := fs.latest ++ p, ioOps := fs.ioOps + 1 }) := by
  simp [handleWrite, ho, takeFault_nil, h1]

theorem handleSync_ok {w : Writer} {fs : FS} (ho : w.osOpen = true)
    (h1 : fs.faults = []) :
    handleSync w fs = (.ok (), { fs with durable := fs.latest, ioOps := fs.ioOps + 1 }) := by
  simp [handleSync, ho, takeFault_nil, h1]

theorem handleClose_ok {w : Writer} {fs : FS} (ho : w.osOpen = true)
    (h1 : fs.faults = []) :
    handleClose w fs =
      (.ok (), { w with osOpen := false },
        { fs with closeCalls := fs.closeCalls + 1, ioOps := fs.ioOps + 1 }) := by
  simp [handleClose, ho, takeFault_nil, h1]

theorem openLatest_exists {w : Writer} {fs : FS} (h1 : fs.faults = [])
    (h2 : fs.latestExists = true) :
    openLatest w fs =
      (.ok (), { w with fileOpen := true, osOpen := true },
        { fs with ioOps := fs.ioOps + 1 }) := by
  simp [openLatest, takeFault_nil, h1, h2]

theorem openLatest_fresh {w : Writer} {fs : FS} (h1 : fs.faults = [])
    (h2 : fs.latestExists = false) :
    openLatest w fs =
      (.ok (), { w with fileOpen := true, osOpen := true },
        { fs with latest := [], durable := [], latestExists := true,
                  ioOps := fs.ioOps + 1 }) := by
  simp [openLatest, takeFault_nil, h1, h2]

theorem renameLatest_ok {fs : FS} (h1 : fs.faults = [])
    (h2 : fs.latestExists = true) :
    renameLatest fs =
      (.ok (), { fs with
        rotated := (rotatedName fs.now, fs.latest) :: fs.rotated,
        latest := [], durable := [], latestExists := false,
        ioOps := fs.ioOps + 1 }) := by
  simp [renameLatest, takeFault_nil, h1, h2]

theorem lockAcquire_ok {fs : FS} (h1 : fs.faults = []) :
    lockAcquire fs = (.ok (), { fs with locked := true, ioOps := fs.ioOps + 1 }) := by
  simp [lockAcquire, takeFault_nil, h1]

theorem ensureCurrentFile_ok {w : Writer} {fs : FS} (ho : w.osOpen = true)
    (h1 : fs.faults = []) (h2 : fs.latestExists = true) :
    ensureCurrentFile w fs = (.ok (), w, { fs with ioOps := fs.ioOps + 2 }) := by
  simp [ensureCurrentFile, pathStatLatest_ok, handleStat_ok, h1, h2, ho]

theorem rotate_ok {w : Writer} {fs : FS} (herr : w.err = none)
    (hfo : w.fileOpen = true) (ho : w.osOpen = true)
    (h1 : fs.faults = []) (h2 : fs.latestExists = true) :
    rotate w fs =
      (.ok (), { w with fileOpen := true, osOpen := true },
        { fs with
          rotated := (rotatedName fs.now, fs.latest) :: fs.rotated,
          latest := [], durable := [], locked := false,
          ioOps := fs.ioOps + 4, closeCalls := fs.closeCalls + 1 }) := by
  simp [rotate, herr, lockAcquire_ok, rotateLocked, hfo, ho, h1, h2,
        handleClose_ok, renameLatest_ok, openLatest_fresh, lockRelease]

theorem flush_empty {w : Writer} {fs : FS} (herr : w.err = none)
    (hfo : w.fileOpen = true) (hbuf : w.buf = []) :
    flush w fs = (.ok (), w, fs) := by
  simp [flush, herr, hfo, hbuf]

theorem flush_ok_noRot {w : Writer} {fs : FS} (herr : w.err = none)
    (hfo : w.fileOpen = true) (ho : w.osOpen = true)
    (h1 : fs.faults = []) (h2 : fs.latestExists = true)
    (hbuf : w.buf ≠ [])
    (hsz : (fs.latest.length : Int) + (w.buf.length : Int) < w.cfg.maxFileSize) :
    flush w fs =
      (.ok (), { w with buf := [] },
        { fs with latest := fs.latest ++ w.buf, durable := fs.latest ++ w.buf,
                  ioOps := fs.ioOps + 5 }) := by
  have hbe : w.buf.isEmpty = false := by
    cases hb : w.buf <;> simp_all
  have hc : ¬ (w.cfg.maxFileSize ≤ (fs.latest.length : Int) + (w.buf.length : Int)) :=
    not_le.mpr hsz
  simp [flush, herr, hfo, hbe, ensureCurrentFile_ok, handleStat_ok,
        handleWrite_ok, handleSync_ok, ho, h1, h2, hc]

theorem flush_ok_rot {w : Writer} {fs : FS} (herr : w.err = none)
    (hfo : w.fileOpen = true) (ho : w.osOpen = true)
    (h1 : fs.faults = []) (h2 : fs.latestExists = true)
    (hbuf : w.buf ≠ [])
    (hsz : w.cfg.maxFileSize ≤ (fs.latest.length : Int) + (w.buf.length : Int)) :
    flush w fs =
      (.ok (), { w with buf := [] },
        { fs with rotated := (rotatedName fs.now, fs.latest) :: fs.rotated,
                  latest := w.buf, durable := w.buf, locked := false,
                  ioOps := fs.ioOps + 9, closeCalls := fs.closeCalls + 1 }) := by
  have hbe : w.buf.isEmpty = false := by
    cases hb : w.buf <;> simp_all
  simp [flush, herr, hfo, hbe, ensureCurrentFile_ok, handleStat_ok, rotate_ok,
        handleWrite_ok, handleSync_ok, ho, h1, h2, hsz]

theorem Write_buffered {w : Writer} {fs : FS} {p : List Nat}
    (herr : w.err = none)
    (hsmall : (w.buf.length : Int) + (p.length : Int) < w.cfg.maxBufSize) :
    Write w fs p = (.ok p.length, { w with buf := w.buf ++ p }, fs) := by
  have hc1 : ¬ (w.cfg.maxBufSize ≤ (w.buf.length : Int) + (p.length : Int)) :=
    not_le.mpr hsmall
  have hc2 : ¬ (w.cfg.maxBufSize ≤ (p.length : Int)) := by omega
  simp [Write, herr, hc1, hc2]

theorem Write_step {w : Writer} {fs : FS} {p data : List Nat}
    (hg : GoodRun w fs data)
    (hp : (p.length : Int) < w.cfg.maxBufSize)
    (hfile : (data.length : Int) + (p.length : Int) < w.cfg.maxFileSize) :
    ∃ w' fs', Write w fs p = (.ok p.length, w', fs') ∧
      GoodRun w' fs' (data ++ p) ∧ w'.cfg = w.cfg ∧
      fs'.rotated = fs.rotated ∧ fs'.now = fs.now ∧ fs'.locked = fs.locked := by
  obtain ⟨herr, hfo, ho, h2, h1, hdur, hdata, hblen⟩ := hg
  have hdlen : (data.length : Int) = (fs.latest.length : Int) + (w.buf.length : Int) := by
    rw [← hdata]; push_cast [List.length_append]; ring
  by_cases hc : w.cfg.maxBufSize ≤ (w.buf.length : Int) + (p.length : Int)
  · have hbuf : w.buf ≠ [] := by
      intro hb
      rw [hb] at hc
      simp at hc
      omega
    have hflush := flush_ok_noRot herr hfo ho h1 h2 hbuf (by omega)
    have hc2 : ¬ (w.cfg.maxBufSize ≤ (p.length : Int)) := by omega
    refine ⟨{ w with buf := p },
      { fs with latest := fs.latest ++ w.buf, durable := fs.latest ++ w.buf,
                ioOps := fs.ioOps + 5 }, ?_, ?_, rfl, rfl, rfl, rfl⟩
    · simp [Write, herr, hc, hflush, hc2]
    · refine ⟨herr, hfo, ho, h2, h1, rfl, ?_, by simpa using hp⟩
      simp [← hdata, List.append_assoc]
  · have := @Write_buffered w fs p herr (not_le.mp hc)
    refine ⟨{ w with buf := w.buf ++ p }, fs, this, ?_, rfl, rfl, rfl, rfl⟩
    refine ⟨herr, hfo, ho, h2, h1, hdur, ?_, ?_⟩
    · simp [← hdata, List.append_assoc]
    · push_cast [List.length_append]
      omega

theorem writeListOk_good {ps : List (List Nat)} :
    ∀ {w : Writer} {fs : FS} {data : List Nat}, GoodRun w fs data →
    (∀ p ∈ ps, (p.length : Int) < w.cfg.maxBufSize) →
    ((data.length : Int) + ((concatAll ps).length : Int) < w.cfg.maxFileSize) →
    ∃ w' fs', writeListOk w fs ps = (true, w', fs') ∧
      GoodRun w' fs' (data ++ concatAll ps) ∧ w'.cfg = w.cfg ∧
      fs'.rotated = fs.rotated ∧ fs'.now = fs.now ∧ fs'.locked = fs.locked := by
  induction ps with
  | nil =>
    intro w fs data hg _ _
    exact ⟨w, fs, rfl, by simpa [concatAll] using hg, rfl, rfl, rfl, rfl⟩
  | cons p rest ih =>
    intro w fs data hg hlens htot
    have hcat : concatAll (p :: rest) = p ++ concatAll rest := rfl
    have hlen : ((concatAll (p :: rest)).length : Int) =
        (p.length : Int) + ((concatAll rest).length : Int) := by
      rw [hcat]; push_cast [List.length_append]; ring
    have hp : (p.length : Int) < w.cfg.maxBufSize := hlens p (List.mem_cons_self p rest)
    obtain ⟨w1, fs1, hw, hg1, hcfg1, hrot1, hnow1, hlock1⟩ :=
      Write_step hg hp (by omega)
    have hlens1 : ∀ q ∈ rest, (q.length : Int) < w1.cfg.maxBufSize := by
      intro q hq
      rw [hcfg1]
      exact hlens q (List.mem_cons_of_mem p hq)
    have htot1 : (((data ++ p).length : Int) + ((concatAll rest).length : Int) <
        w1.cfg.maxFileSize) := by
      rw [hcfg1]
      push_cast [List.length_append]
      omega
    obtain ⟨w2, fs2, hw2, hg2, hcfg2, hrot2, hnow2, hlock2⟩ := ih hg1 hlens1 htot1
    refine ⟨w2, fs2, ?_, ?_, ?_, ?_, ?_, ?_⟩
    · simp [writeListOk, hw, hw2]
    · simpa [hcat, List.append_assoc] using hg2
    · rw [hcfg2, hcfg1]
    · rw [hrot2, hrot1]
    · rw [hnow2, hnow1]
    · rw [hlock2, hlock1]

/-- Length of the concatenation when every payload has the same length. -/
theorem concatAll_length_const {ps : List (List Nat)} {m : Nat}
    (h : ∀ p ∈ ps, p.length = m) :
    (concatAll ps).length = ps.length * m := by
  induction ps with
  | nil => simp [concatAll]
  | cons p rest ih =>
    have hp : p.length = m := h p (List.mem_cons_self p rest)
    have := ih (fun q hq => h q (List.mem_cons_of_mem p hq))
    simp only [concatAll, List.foldr] at this ⊢
    simp [List.length_append, this, hp, List.length_cons]
    ring

theorem run_flush_concat {w : Writer} {fs : FS} {ps : List (List Nat)}
    (hg : GoodRun w fs [])
    (hlens : ∀ p ∈ ps, (p.length : Int) < w.cfg.maxBufSize)
    (htot : ((concatAll ps).length : Int) < w.cfg.maxFileSize) :
    ∃ w1 fs1 w2 fs2,
      writeListOk w fs ps = (true, w1, fs1) ∧
      Flush w1 fs1 = (.ok (), w2, fs2) ∧
      fs2.latest = concatAll ps ∧ fs2.durable = concatAll ps ∧
      fs2.rotated = fs.rotated := by
  obtain ⟨w1, fs1, hrun, hg1, hcfg1, hrot1, -, -⟩ :=
    writeListOk_good hg hlens (by simpa using htot)
  obtain ⟨herr1, hfo1, ho1, h21, h11, hdur1, hdata1, hblen1⟩ := hg1
  simp only [List.nil_append] at hdata1
  have hlen1 : (fs1.latest.length : Int) + (w1.buf.length : Int) =
      ((concatAll ps).length : Int) := by
    rw [← hdata1]
    push_cast [List.length_append]
    ring
  by_cases hb : w1.buf = []
  · refine ⟨w1, fs1, w1, fs1, hrun, flush_empty herr1 hfo1 hb, ?_, ?_, hrot1⟩
    · rw [← hdata1, hb, List.append_nil]
    · rw [hdur1, ← hdata1, hb, List.append_nil]
  · have hsz : (fs1.latest.length : Int) + (w1.buf.length : Int) < w1.cfg.maxFileSize := by
      rw [hlen1, hcfg1]
      exact htot
    refine ⟨w1, fs1, { w1 with buf := [] },
      { fs1 with latest := fs1.latest ++ w1.buf, durable := fs1.latest ++ w1.buf,
                 ioOps := fs1.ioOps + 5 },
      hrun, flush_ok_noRot herr1 hfo1 ho1 h11 h21 hb hsz, ?_, ?_, hrot1⟩
    · exact hdata1
    · exact hdata1

/-- Claim C1: for an open, healthy writer on a fresh (empty) `latest.log`,
any finite sequence of `Write` calls whose payloads are each below the
buffer-size threshold, followed by a `Flush`, leaves `latest.log` holding
exactly the concatenation of the payloads in call order, durably synced
(single-threaded caller, total below the file-size threshold so no
rotation occurs). -/
theorem c1_round_trip {w : Writer} {fs : FS} {ps : List (List Nat)}
    (hg : GoodRun w fs [])
    (hlens : ∀ p ∈ ps, (p.length : Int) < w.cfg.maxBufSize)
    (htot : ((concatAll ps).length : Int) < w.cfg.maxFileSize) :
    ∃ w1 fs1 w2 fs2,
      writeListOk w fs ps = (true, w1, fs1) ∧
      Flush w1 fs1 = (.ok (), w2, fs2) ∧
      fs2.latest = concatAll ps ∧ fs2.durable = concatAll ps := by
  obtain ⟨w1, fs1, w2, fs2, h1, h2, h3, h4, -⟩ := run_flush_concat hg hlens htot
  exact ⟨w1, fs1, w2, fs2, h1, h2, h3, h4⟩

theorem c1_round_trip_witness :
    (GoodRun w0 fs0 [] ∧
      (∀ p ∈ [[1, 2], [3, 4], [5]], ((p.length : Int) < w0.cfg.maxBufSize)) ∧
      ((concatAll [[1, 2], [3, 4], [5]]).length : Int) < w0.cfg.maxFileSize) ∧
    (∃ w1 fs1 w2 fs2,
      writeListOk w0 fs0 [[1, 2], [3, 4], [5]] = (true, w1, fs1) ∧
      Flush w1 fs1 = (.ok (), w2, fs2) ∧
      fs2.latest = concatAll [[1, 2], [3, 4], [5]] ∧
      fs2.durable = concatAll [[1, 2], [3, 4], [5]]) :=
  ⟨⟨by decide, by decide, by decide⟩,
    c1_round_trip (by decide) (by decide) (by decide)⟩

/-- Claim C9: for any serialization order of N×M writes of a fixed-length
message on a healthy fresh writer (the instance mutex makes concurrent
callers' writes land in some total order), followed by a `Flush`, the byte
length of `latest.log` is exactly (number of writes) × message-length — no
bytes dropped or duplicated (total below the file-size threshold). -/
theorem c9_concurrent_total_length {w : Writer} {fs : FS}
    {ps : List (List Nat)} {m : Nat}
    (hg : GoodRun w fs [])
    (hm : ∀ p ∈ ps, p.length = m)
    (hmlt : (m : Int) < w.cfg.maxBufSize)
    (htot : ((ps.length * m : Nat) : Int) < w.cfg.maxFileSize) :
    ∃ w1 fs1 w2 fs2,
      writeListOk w fs ps = (true, w1, fs1) ∧
      Flush w1 fs1 = (.ok (), w2, fs2) ∧
      fs2.latest.length = ps.length * m := by
  have hlens : ∀ p ∈ ps, (p.length : Int) < w.cfg.maxBufSize := by
    intro p hp
    rw [hm p hp]
    exact hmlt
  have hclen := concatAll_length_const hm
  obtain ⟨w1, fs1, w2, fs2, h1, h2, h3, -, -⟩ :=
    run_flush_concat hg hlens (by rw [hclen]; exact htot)
  exact ⟨w1, fs1, w2, fs2, h1, h2, by rw [h3, hclen]⟩

theorem c9_concurrent_total_length_witness :
    (GoodRun w0 fs0 [] ∧
      (∀ p ∈ [[7], [8], [9], [6]], p.length = 1) ∧
      ((1 : Int) < w0.cfg.maxBufSize) ∧
      ((([[7], [8], [9], [6]].length * 1 : Nat) : Int) < w0.cfg.maxFileSize)) ∧
    (∃ w1 fs1 w2 fs2,
      writeListOk w0 fs0 [[7], [8], [9], [6]] = (true, w1, fs1) ∧
      Flush w1 fs1 = (.ok (), w2, fs2) ∧
      fs2.latest.length = [[7], [8], [9], [6]].length * 1) :=
  ⟨⟨by decide, by decide, by decide, by decide⟩,
    c9_concurrent_total_length (by decide) (by decide) (by decide) (by decide)⟩

/-- Claim C2: with file-size threshold T, writing P1 then flushing, then
writing P2 then flushing, where len(P1) < T and T ≤ len(P1)+len(P2)
(payloads below the buffer threshold so they take the buffered path),
leaves `latest.log` holding exactly P2 and pushes exactly one new rotated
file, named from the sub-second timestamp, holding exactly P1 — the
rotation being triggered pre-emptively by the size projection before the
second flush's write lands. -/
theorem c2_rotation {w : Writer} {fs : FS} {p1 p2 : List Nat}
    (hg : GoodRun w fs [])
    (hb1 : (p1.length : Int) < w.cfg.maxBufSize)
    (hb2 : (p2.length : Int) < w.cfg.maxBufSize)
    (hlt : (p1.length : Int) < w.cfg.maxFileSize)
    (hge : w.cfg.maxFileSize ≤ (p1.length : Int) + (p2.length : Int)) :
    ∃ wa fsa wb fsb wc fsc wd fsd,
      Write w fs p1 = (.ok p1.length, wa, fsa) ∧
      Flush wa fsa = (.ok (), wb, fsb) ∧
      Write wb fsb p2 = (.ok p2.length, wc, fsc) ∧
      Flush wc fsc = (.ok (), wd, fsd) ∧
      fsd.latest = p2 ∧
      fsd.rotated = (rotatedName fs.now, p1) :: fs.rotated := by
  obtain ⟨herr, hfo, ho, h2, h1, hdur, hdata, hblen⟩ := hg
  obtain ⟨hl, hbf⟩ := List.append_eq_nil.mp hdata
  have hp2 : p2 ≠ [] := by
    intro h
    rw [h] at hge
    simp at hge
    omega
  have hwa : Write w fs p1 = (.ok p1.length, { w with buf := p1 }, fs) := by
    rw [Write_buffered herr (by rw [hbf]; simpa using hb1)]
    simp [hbf]
  by_cases hp1 : p1 = []
  · subst hp1
    have hfb : Flush ({ w with buf := [] } : Writer) fs = (.ok (), { w with buf := [] }, fs) :=
      flush_empty (by simpa using herr) (by simpa using hfo) rfl
    have hwc : Write ({ w with buf := [] } : Writer) fs p2 =
        (.ok p2.length, { w with buf := p2 }, fs) := by
      rw [Write_buffered (by simpa using herr) (by simpa using hb2)]
      simp
    have hfd := @flush_ok_rot { w with buf := p2 } fs
      (by simpa using herr) (by simpa using hfo) (by simpa using ho)
      h1 h2 (by simpa using hp2)
      (by simp at hge; simp [hl]; omega)
    refine ⟨_, _, _, _, _, _, _, _, hwa, hfb, hwc, hfd, ?_, ?_⟩
    · simp
    · simp [hl]
  · have hfb : Flush ({ w with buf := p1 } : Writer) fs =
        (.ok (), { w with buf := [] },
          { fs with latest := p1, durable := p1, ioOps := fs.ioOps + 5 }) := by
      simp only [Flush]
      rw [@flush_ok_noRot { w with buf := p1 } fs
        (by simpa using herr) (by simpa using hfo)
        (by simpa using ho) h1 h2 (by simpa using hp1)
        (by simp [hl]; omega)]
      simp [hl]
    have hwc : Write ({ w with buf := [] } : Writer)
        ({ fs with latest := p1, durable := p1, ioOps := fs.ioOps + 5 } : FS) p2 =
        (.ok p2.length, { w with buf := p2 },
          { fs with latest := p1, durable := p1, ioOps := fs.ioOps + 5 }) := by
      rw [Write_buffered (by simpa using herr) (by simpa using hb2)]
      simp
    have hfd := @flush_ok_rot { w with buf := p2 }
      { fs with latest := p1, durable := p1, ioOps := fs.ioOps + 5 }
      (by simpa using herr) (by simpa using hfo) (by simpa using ho)
      (by simpa using h1) (by simpa using h2) (by simpa using hp2)
      (by simp; omega)
    refine ⟨_, _, _, _, _, _, _, _, hwa, hfb, hwc, hfd, ?_, ?_⟩
    · simp
    · simp

theorem c2_rotation_witness :
    (GoodRun wRot fs0 [] ∧
      ((([1, 2, 3] : List Nat).length : Int) < wRot.cfg.maxBufSize) ∧
      ((([4, 5, 6, 7] : List Nat).length : Int) < wRot.cfg.maxBufSize) ∧
      ((([1, 2, 3] : List Nat).length : Int) < wRot.cfg.maxFileSize) ∧
      (wRot.cfg.maxFileSize ≤
        (([1, 2, 3] : List Nat).length : Int) + (([4, 5, 6, 7] : List Nat).length : Int))) ∧
    (∃ wa fsa wb fsb wc fsc wd fsd,
      Write wRot fs0 [1, 2, 3] = (.ok ([1, 2, 3] : List Nat).length, wa, fsa) ∧
      Flush wa fsa = (.ok (), wb, fsb) ∧
      Write wb fsb [4, 5, 6, 7] = (.ok ([4, 5, 6, 7] : List Nat).length, wc, fsc) ∧
      Flush wc fsc = (.ok (), wd, fsd) ∧
      fsd.latest = [4, 5, 6, 7] ∧
      fsd.rotated = (rotatedName fs0.now, [1, 2, 3]) :: fs0.rotated) :=
  ⟨⟨by decide, by decide, by decide, by decide, by decide⟩,
    c2_rotation (by decide) (by decide) (by decide) (by decide) (by decide)⟩

/-- Claim C3: once an error is latched (`w.err` non-nil), every subsequent
`Write` and `Flush` returns exactly that error with the writer and
filesystem states untouched (so no filesystem I/O is attempted), and
`Close` also returns it and keeps it latched — the error is never
cleared. -/
theorem c3_poison_sticky {w : Writer} {fs : FS} {p : List Nat} {e : WErr}
    (h : w.err = some e) :
    Write w fs p = (.error e, w, fs) ∧
    Flush w fs = (.error e, w, fs) ∧
    Close w fs = (.error e, { w with ageTrigger := false }, fs) := by
  refine ⟨?_, ?_, ?_⟩ <;> simp [Write, Flush, flush, Close, h]

theorem c3_poison_sticky_witness :
    wP.err = some (WErr.statErr PErr.injected) ∧
    (Write wP fs0 [1] = (.error (WErr.statErr PErr.injected), wP, fs0) ∧
     Flush wP fs0 = (.error (WErr.statErr PErr.injected), wP, fs0) ∧
     Close wP fs0 = (.error (WErr.statErr PErr.injected),
       { wP with ageTrigger := false }, fs0)) :=
  ⟨rfl, c3_poison_sticky rfl⟩

theorem flush_healthy {w : Writer} {fs : FS} (herr : w.err = none)
    (hfo : w.fileOpen = true) (ho : w.osOpen = true)
    (h1 : fs.faults = []) (h2 : fs.latestExists = true) :
    ∃ w' fs', flush w fs = (.ok (), w', fs') ∧ w'.buf = [] ∧ w'.cfg = w.cfg ∧
      w'.err = none ∧ w'.fileOpen = true ∧ w'.osOpen = true ∧
      fs'.faults = [] ∧ fs'.latestExists = true := by
  by_cases hb : w.buf = []
  · exact ⟨w, fs, flush_empty herr hfo hb, hb, rfl, herr, hfo, ho, h1, h2⟩
  · by_cases hsz : w.cfg.maxFileSize ≤ (fs.latest.length : Int) + (w.buf.length : Int)
    · refine ⟨_, _, flush_ok_rot herr hfo ho h1 h2 hb hsz, ?_, ?_, ?_, ?_, ?_, ?_, ?_⟩
      all_goals simp [herr, hfo, ho, h1, h2]
    · refine ⟨_, _, flush_ok_noRot herr hfo ho h1 h2 hb (not_le.mp hsz),
        ?_, ?_, ?_, ?_, ?_, ?_, ?_⟩
      all_goals simp [herr, hfo, ho, h1, h2]

theorem Write_healthy {w : Writer} {fs : FS} {p : List Nat}
    (herr : w.err = none) (hfo : w.fileOpen = true) (ho : w.osOpen = true)
    (h1 : fs.faults = []) (h2 : fs.latestExists = true)
    (hpos : 0 < w.cfg.maxBufSize)
    (hblen : (w.buf.length : Int) < w.cfg.maxBufSize) :
    (Write w fs p).1 = .ok p.length ∧
    (Write w fs p).2.1.cfg = w.cfg ∧
    (((Write w fs p).2.1.buf.length : Int) < w.cfg.maxBufSize) := by
  by_cases hc : w.cfg.maxBufSize ≤ (w.buf.length : Int) + (p.length : Int)
  · obtain ⟨w1, fs1, hfl, hb1, hcfg1, herr1, hfo1, ho1, h11, h21⟩ :=
      flush_healthy herr hfo ho h1 h2
    by_cases hsp : w.cfg.maxBufSize ≤ (p.length : Int)
    · by_cases hr : w.cfg.maxFileSize ≤ (fs1.latest.length : Int) + (p.length : Int)
      · refine ⟨?_, ?_, ?_⟩ <;>
          (simp only [Write, herr, if_pos hc, hfl]
           simp [hsp, ensureCurrentFile_ok, handleStat_ok, rotate_ok,
             handleWrite_ok, handleSync_ok, herr1, hfo1, ho1, h11, h21, hr,
             hcfg1, hb1]) <;>
          omega
      · refine ⟨?_, ?_, ?_⟩ <;>
          (simp only [Write, herr, if_pos hc, hfl]
           simp [hsp, ensureCurrentFile_ok, handleStat_ok,
             handleWrite_ok, handleSync_ok, herr1, hfo1, ho1, h11, h21, hr,
             hcfg1, hb1]) <;>
          omega
    · refine ⟨?_, ?_, ?_⟩ <;>
        (simp only [Write, herr, if_pos hc, hfl]
         simp [hsp, hcfg1, hb1]) <;>
        omega
  · refine ⟨?_, ?_, ?_⟩ <;>
      simp [Write_buffered herr (not_le.mp hc)] <;>
      omega

/-- Claim C10 (implicit invariant): immediately after every successful
`Write` on an open, healthy writer whose buffer is below `MaxBufSize`,
the buffered length is again strictly below `MaxBufSize` — `Write`
flushes first whenever the buffered plus incoming length would reach the
threshold, and payloads at or above the threshold bypass the buffer. -/
theorem c10_buffer_below_threshold {w : Writer} {fs : FS} {p : List Nat}
    (herr : w.err = none) (hfo : w.fileOpen = true) (ho : w.osOpen = true)
    (h1 : fs.faults = []) (h2 : fs.latestExists = true)
    (hpos : 0 < w.cfg.maxBufSize)
    (hblen : (w.buf.length : Int) < w.cfg.maxBufSize) :
    (Write w fs p).1 = .ok p.length ∧
    (Write w fs p).2.1.cfg = w.cfg ∧
    (((Write w fs p).2.1.buf.length : Int) < w.cfg.maxBufSize) :=
  Write_healthy herr hfo ho h1 h2 hpos hblen

theorem c10_buffer_below_threshold_witness :
    (w0.err = none ∧ w0.fileOpen = true ∧ w0.osOpen = true ∧
      fs0.faults = [] ∧ fs0.latestExists = true ∧
      0 < w0.cfg.maxBufSize ∧ ((w0.buf.length : Int) < w0.cfg.maxBufSize)) ∧
    ((Write w0 fs0 [1, 2, 3, 4, 5, 6]).1 = .ok ([1, 2, 3, 4, 5, 6] : List Nat).length ∧
     (Write w0 fs0 [1, 2, 3, 4, 5, 6]).2.1.cfg = w0.cfg ∧
     (((Write w0 fs0 [1, 2, 3, 4, 5, 6]).2.1.buf.length : Int) < w0.cfg.maxBufSize)) :=
  ⟨⟨rfl, rfl, rfl, rfl, rfl, by decide, by decide⟩,
    c10_buffer_below_threshold rfl rfl rfl rfl rfl (by decide) (by decide)⟩

/-- Claim C7: a single `Write` whose payload is at or above the
buffer-size threshold never enters the buffer (any previously buffered
bytes are flushed first), lands directly in the active file after them,
and is synced to stable storage before the call returns success (sizes
kept below the file-size threshold so no rotation occurs). -/
theorem c7_large_payload_bypass {w : Writer} {fs : FS} {p : List Nat}
    (herr : w.err = none) (hfo : w.fileOpen = true) (ho : w.osOpen = true)
    (h1 : fs.faults = []) (h2 : fs.latestExists = true)
    (hbig : w.cfg.maxBufSize ≤ (p.length : Int))
    (hroom : (fs.latest.length : Int) + (w.buf.length : Int) + (p.length : Int)
      < w.cfg.maxFileSize) :
    (Write w fs p).1 = .ok p.length ∧
    (Write w fs p).2.1.buf = [] ∧
    (Write w fs p).2.2.latest = fs.latest ++ w.buf ++ p ∧
    (Write w fs p).2.2.durable = fs.latest ++ w.buf ++ p := by
  have hc : w.cfg.maxBufSize ≤ (w.buf.length : Int) + (p.length : Int) := by omega
  by_cases hb : w.buf = []
  · have hb0 : (w.buf.length : Int) = 0 := by rw [hb]; rfl
    have hnr : ¬ (w.cfg.maxFileSize ≤ (fs.latest.length : Int) + (p.length : Int)) := by
      omega
    refine ⟨?_, ?_, ?_, ?_⟩ <;>
      (simp only [Write, herr, if_pos hc, flush_empty herr hfo hb]
       simp [hbig, ensureCurrentFile_ok, handleStat_ok, handleWrite_ok,
         handleSync_ok, ho, h1, h2, hnr, hb])
  · have hsz : (fs.latest.length : Int) + (w.buf.length : Int) < w.cfg.maxFileSize := by
      omega
    have hnr2 : ¬ (w.cfg.maxFileSize ≤
        (fs.latest.length : Int) + (w.buf.length : Int) + (p.length : Int)) := by
      omega
    refine ⟨?_, ?_, ?_, ?_⟩ <;>
      (simp only [Write, herr, if_pos hc, flush_ok_noRot herr hfo ho h1 h2 hb hsz]
       simp [hbig, ensureCurrentFile_ok, handleStat_ok, handleWrite_ok,
         handleSync_ok, ho, h1, h2, hnr2, List.append_assoc])

theorem c7_large_payload_bypass_witness :
    (w0.err = none ∧ w0.fileOpen = true ∧ w0.osOpen = true ∧
      fs0.faults = [] ∧ fs0.latestExists = true ∧
      (w0.cfg.maxBufSize ≤ (([1, 2, 3, 4, 5] : List Nat).length : Int)) ∧
      ((fs0.latest.length : Int) + (w0.buf.length : Int) +
        (([1, 2, 3, 4, 5] : List Nat).length : Int) < w0.cfg.maxFileSize)) ∧
    ((Write w0 fs0 [1, 2, 3, 4, 5]).1 = .ok ([1, 2, 3, 4, 5] : List Nat).length ∧
     (Write w0 fs0 [1, 2, 3, 4, 5]).2.1.buf = [] ∧
     (Write w0 fs0 [1, 2, 3, 4, 5]).2.2.latest = fs0.latest ++ w0.buf ++ [1, 2, 3, 4, 5] ∧
     (Write w0 fs0 [1, 2, 3, 4, 5]).2.2.durable = fs0.latest ++ w0.buf ++ [1, 2, 3, 4, 5]) :=
  ⟨⟨rfl, rfl, rfl, rfl, rfl, by decide, by decide⟩,
    c7_large_payload_bypass rfl rfl rfl rfl rfl (by decide) (by decide)⟩

/-- Counterexample to claim C4 as stated: after `Close()` on a healthy
writer, a subsequent small `Write` SUCCEEDS (returns `ok` and buffers the
byte) instead of failing — `Close` never clears the file pointer nor
latches an error, so the closed state is not visible to `Write`. -/
theorem c4_counterexample :
    (Close w0 fs0).1 = .ok () ∧
    (Write (Close w0 fs0).2.1 (Close w0 fs0).2.2 [7]).1 = .ok 1 ∧
    (Write (Close w0 fs0).2.1 (Close w0 fs0).2.2 [7]).2.1.buf = [7] :=
  ⟨rfl, rfl, rfl⟩

/-- Claim C4 amended: after `Close()` on a healthy writer the underlying
descriptor is closed but the file pointer stays set and no error is
latched, so a subsequent small `Write` still succeeds by buffering in
memory; the first subsequent `Flush` of that buffered data fails (the
drift-check stat on the closed handle returns the `os.ErrClosed` error)
and only then latches the error.  The "file is closed" latched-error path
exists in `flush` but is not reached via `Close`. -/
theorem c4_amended {w : Writer} {fs : FS} {p : List Nat}
    (herr : w.err = none) (hfo : w.fileOpen = true) (ho : w.osOpen = true)
    (hbuf : w.buf = []) (h1 : fs.faults = []) (h2 : fs.latestExists = true)
    (hp : (p.length : Int) < w.cfg.maxBufSize) (hpn : p ≠ []) :
    Close w fs = (.ok (), { w with ageTrigger := false, osOpen := false },
      { fs with ioOps := fs.ioOps + 1, closeCalls := fs.closeCalls + 1 }) ∧
    Write { w with ageTrigger := false, osOpen := false }
        { fs with ioOps := fs.ioOps + 1, closeCalls := fs.closeCalls + 1 } p =
      (.ok p.length, { w with ageTrigger := false, osOpen := false, buf := p },
        { fs with ioOps := fs.ioOps + 1, closeCalls := fs.closeCalls + 1 }) ∧
    Flush { w with ageTrigger := false, osOpen := false, buf := p }
        { fs with ioOps := fs.ioOps + 1, closeCalls := fs.closeCalls + 1 } =
      (.error (WErr.raw .closedFile),
        { w with ageTrigger := false, osOpen := false, buf := p,
                 err := some (WErr.raw .closedFile) },
        { fs with ioOps := fs.ioOps + 1 + 1, closeCalls := fs.closeCalls + 1 }) := by
  have hpe : p.isEmpty = false := by
    cases p <;> simp_all
  refine ⟨?_, ?_, ?_⟩
  · simp [Close, flush_empty, handleClose_ok, herr, hfo, ho, hbuf, h1]
  · rw [Write_buffered (show ({ w with ageTrigger := false, osOpen := false } : Writer).err = none by simpa using herr)
      (by simp [hbuf]; omega)]
    simp [hbuf]
  · simp [Flush, flush, herr, hfo, hpe, ensureCurrentFile, pathStatLatest,
      handleStat, takeFault, h1, h2]

theorem c4_amended_witness :
    (w0.err = none ∧ w0.fileOpen = true ∧ w0.osOpen = true ∧ w0.buf = [] ∧
      fs0.faults = [] ∧ fs0.latestExists = true ∧
      ((([7] : List Nat).length : Int) < w0.cfg.maxBufSize) ∧ ([7] : List Nat) ≠ []) ∧
    (Close w0 fs0 = (.ok (), { w0 with ageTrigger := false, osOpen := false },
        { fs0 with ioOps := fs0.ioOps + 1, closeCalls := fs0.closeCalls + 1 }) ∧
     Write { w0 with ageTrigger := false, osOpen := false }
         { fs0 with ioOps := fs0.ioOps + 1, closeCalls := fs0.closeCalls + 1 } [7] =
       (.ok ([7] : List Nat).length,
         { w0 with ageTrigger := false, osOpen := false, buf := [7] },
         { fs0 with ioOps := fs0.ioOps + 1, closeCalls := fs0.closeCalls + 1 }) ∧
     Flush { w0 with ageTrigger := false, osOpen := false, buf := [7] }
         { fs0 with ioOps := fs0.ioOps + 1, closeCalls := fs0.closeCalls + 1 } =
       (.error (WErr.raw .closedFile),
         { w0 with ageTrigger := false, osOpen := false, buf := [7],
                   err := some (WErr.raw .closedFile) },
         { fs0 with ioOps := fs0.ioOps + 1 + 1, closeCalls := fs0.closeCalls + 1 })) :=
  ⟨⟨rfl, rfl, rfl, rfl, rfl, rfl, by decide, by decide⟩,
    c4_amended rfl rfl rfl rfl rfl rfl (by decide) (by decide)⟩

/-- Counterexample to claim C5 as stated: closing an already-closed
writer invokes `file.Close()` on the underlying handle a second time
(the close-call counter reaches 2), because `Close` neither nils the
file pointer nor latches an error on the first call. -/
theorem c5_counterexample :
    (Close w0 fs0).2.2.closeCalls = 1 ∧
    (Close (Close w0 fs0).2.1 (Close w0 fs0).2.2).2.2.closeCalls = 2 ∧
    (Close (Close w0 fs0).2.1 (Close w0 fs0).2.2).1 =
      .error (WErr.raw .closedFile) :=
  ⟨rfl, rfl, rfl⟩

/-- Claim C5 amended: closing an already-closed writer (empty buffer)
returns the `os.ErrClosed` error produced by invoking `file.Close()` on
the underlying handle a SECOND time; the re-run of `flush` is a no-op on
the empty buffer (no bytes written, no filesystem operation attempted),
and the error is returned raw without being latched. -/
theorem c5_amended {w : Writer} {fs : FS}
    (herr : w.err = none) (hfo : w.fileOpen = true) (ho : w.osOpen = true)
    (hbuf : w.buf = []) (h1 : fs.faults = []) (h2 : fs.latestExists = true) :
    Close w fs = (.ok (), { w with ageTrigger := false, osOpen := false },
      { fs with ioOps := fs.ioOps + 1, closeCalls := fs.closeCalls + 1 }) ∧
    Close { w with ageTrigger := false, osOpen := false }
        { fs with ioOps := fs.ioOps + 1, closeCalls := fs.closeCalls + 1 } =
      (.error (WErr.raw .closedFile),
        { w with ageTrigger := false, osOpen := false },
        { fs with ioOps := fs.ioOps + 1, closeCalls := fs.closeCalls + 1 + 1 }) := by
  refine ⟨?_, ?_⟩
  · simp [Close, flush_empty, handleClose_ok, herr, hfo, ho, hbuf, h1]
  · simp [Close, flush_empty, handleClose, herr, hfo, hbuf]

theorem c5_amended_witness :
    (w0.err = none ∧ w0.fileOpen = true ∧ w0.osOpen = true ∧ w0.buf = [] ∧
      fs0.faults = [] ∧ fs0.latestExists = true) ∧
    (Close w0 fs0 = (.ok (), { w0 with ageTrigger := false, osOpen := false },
        { fs0 with ioOps := fs0.ioOps + 1, closeCalls := fs0.closeCalls + 1 }) ∧
     Close { w0 with ageTrigger := false, osOpen := false }
         { fs0 with ioOps := fs0.ioOps + 1, closeCalls := fs0.closeCalls + 1 } =
       (.error (WErr.raw .closedFile),
         { w0 with ageTrigger := false, osOpen := false },
         { fs0 with ioOps := fs0.ioOps + 1, closeCalls := fs0.closeCalls + 1 + 1 })) :=
  ⟨⟨rfl, rfl, rfl, rfl, rfl, rfl⟩,
    c5_amended rfl rfl rfl rfl rfl rfl⟩

/-- Counterexample to claim C6 as stated: a Config with MaxBufAge = 0
(non-positive) does NOT disable age-based flushing — `NewWriter` applies
the 15 s default and STARTS the background age-trigger task. -/
theorem c6_counterexample :
    ageTriggerOf (NewWriter
      { dirPathSet := true, maxFileSize := 10, maxBufSize := 5, maxBufAge := 0 }
      fs0) = true := rfl

/-- Claim C6 amended: only a NEGATIVE MaxBufAge disables age-based
flushing (no background task started, the negative value kept); a zero
(unset) MaxBufAge is defaulted to 15 seconds and the age-trigger task IS
started; a positive MaxBufAge is kept and the task is started. -/
theorem c6_amended {cfg : Config} {fs : FS}
    (hd : cfg.dirPathSet = true) (h1 : fs.faults = [])
    (h2 : fs.latestExists = true) :
    ∃ w fs', NewWriter cfg fs = .ok (w, fs') ∧
      (cfg.maxBufAge < 0 → w.ageTrigger = false ∧ w.cfg.maxBufAge = cfg.maxBufAge) ∧
      (cfg.maxBufAge = 0 → w.ageTrigger = true ∧ w.cfg.maxBufAge = DefaultMaxBufAge) ∧
      (0 < cfg.maxBufAge → w.ageTrigger = true ∧ w.cfg.maxBufAge = cfg.maxBufAge) := by
  refine ⟨newWriterState cfg, { fs with ioOps := fs.ioOps + 1 }, ?_, ?_, ?_, ?_⟩
  · simp [NewWriter, newWriterState, hd, openLatest_exists, h1, h2]
  · intro h
    have hne : ¬ (cfg.maxBufAge = 0) := by omega
    constructor
    · simp [newWriterState, resolveConfig, hne]
      omega
    · simp [newWriterState, resolveConfig, hne]
  · intro h
    constructor
    · simp [newWriterState, resolveConfig, h, DefaultMaxBufAge]
    · simp [newWriterState, resolveConfig, h]
  · intro h
    have hne : ¬ (cfg.maxBufAge = 0) := by omega
    constructor
    · simp [newWriterState, resolveConfig, hne]
      omega
    · simp [newWriterState, resolveConfig, hne]

theorem c6_amended_witness :
    (({ dirPathSet := true, maxFileSize := 10, maxBufSize := 5,
        maxBufAge := -5 } : Config).dirPathSet = true ∧
      fs0.faults = [] ∧ fs0.latestExists = true) ∧
    (∃ w fs', NewWriter
        { dirPathSet := true, maxFileSize := 10, maxBufSize := 5, maxBufAge := -5 }
        fs0 = .ok (w, fs') ∧
      ((-5 : Int) < 0 → w.ageTrigger = false ∧ w.cfg.maxBufAge = -5) ∧
      ((-5 : Int) = 0 → w.ageTrigger = true ∧ w.cfg.maxBufAge = DefaultMaxBufAge) ∧
      ((0 : Int) < -5 → w.ageTrigger = true ∧ w.cfg.maxBufAge = -5)) :=
  ⟨⟨rfl, rfl, rfl⟩, c6_amended rfl rfl rfl⟩

/-- Claim C8: `rotate` acquires the directory lock, closes the open
handle (counting one close call), renames `latest.log` to the
sub-second-timestamp name and creates a fresh empty `latest.log`; and the
lock is never left held on ANY exit path — whatever the writer state or
injected faults, `rotate` returns with the lock released (when it was
not held on entry).  On the healthy path the full effect equation holds,
exhibiting the rotated file named `rotatedName fs.now` with the old
content. -/
theorem c8_rotate_lock_release {w : Writer} {fs : FS}
    (hl : fs.locked = false) :
    (rotate w fs).2.2.locked = false ∧
    (w.err = none → w.fileOpen = true → w.osOpen = true →
      fs.faults = [] → fs.latestExists = true →
      rotate w fs =
        (.ok (), { w with fileOpen := true, osOpen := true },
          { fs with
            rotated := (rotatedName fs.now, fs.latest) :: fs.rotated,
            latest := [], durable := [], locked := false,
            ioOps := fs.ioOps + 4, closeCalls := fs.closeCalls + 1 })) := by
  constructor
  · cases herr : w.err with
    | some e => simp [rotate, herr, hl]
    | none =>
      rcases hA : lockAcquire fs with ⟨r, fs1⟩
      cases r with
      | error e =>
        have h1 : fs1.locked = fs.locked := by
          simp only [lockAcquire, takeFault] at hA
          rcases hf : fs.faults with - | ⟨b, rest⟩
          · simp [hf] at hA
          · cases b
            · simp [hf] at hA
            · simp [hf] at hA
              obtain ⟨-, h⟩ := hA
              rw [← h]
        simp [rotate, herr, hA, h1, hl]
      | ok u =>
        rcases hR : rotateLocked w fs1 with ⟨res, w2, fs2⟩
        simp [rotate, herr, hA, hR, lockRelease]
  · intro herr hfo ho h1 h2
    exact rotate_ok herr hfo ho h1 h2

theorem c8_rotate_lock_release_witness :
    fs0.locked = false ∧
    ((rotate w0 fs0).2.2.locked = false ∧
     (w0.err = none → w0.fileOpen = true → w0.osOpen = true →
      fs0.faults = [] → fs0.latestExists = true →
      rotate w0 fs0 =
        (.ok (), { w0 with fileOpen := true, osOpen := true },
          { fs0 with
            rotated := (rotatedName fs0.now, fs0.latest) :: fs0.rotated,
            latest := [], durable := [], locked := false,
            ioOps := fs0.ioOps + 4, closeCalls := fs0.closeCalls + 1 }))) :=
  ⟨rfl, c8_rotate_lock_release rfl⟩

end Rlog
